import Mathlib

/-!
# Verification of the InvoiceIQ frontend and schema

Shallow embedding of the invoice-management dashboard:
- `apps/frontend/app/invoices/[id]/page.tsx` — invoice review page state
  transitions (`handleNumberChange`, `updateItem`, `addItem`, `removeItem`,
  `recalcTotals`);
- `apps/frontend/app/page.tsx` — dashboard upload guard (`onUpload`);
- `db/schema.sql` — the three tables and the `ON DELETE CASCADE` clause.

JavaScript numbers are modelled as rationals (`Rat`); the result of
`parseFloat` is modelled as `Option Rat`, with `none` standing for `NaN`
(a non-numeric parse).  Where the distinction matters — `parseFloat` can
also return the infinities, which are truthy and survive `|| 0` — the
full JS number domain is modelled by `JSNum` (`NaN`, `±Infinity`, or a
finite rational) and the stored value by `storedNumericValue`.
-/

/-- `status` values, from the `InvoiceDetail` type of the invoice page and
the `ENUM('PENDING','APPROVED')` column of `schema.sql`. -/
inductive Status where
  | PENDING
  | APPROVED
deriving DecidableEq, Repr

/-- `InvoiceItem` from `invoices/[id]/page.tsx`. -/
structure InvoiceItem where
  sku : Option String
  description : Option String
  qty : Rat
  unit_price : Rat
  tax_rate : Rat
  line_total : Rat
deriving DecidableEq, Repr

/-- `InvoiceDetail` from `invoices/[id]/page.tsx`. -/
structure InvoiceDetail where
  id : Nat
  supplier_name : Option String
  supplier_gstin : Option String
  invoice_no : String
  invoice_date : Option String
  subtotal : Rat
  tax : Rat
  total : Rat
  status : Status
  items : List InvoiceItem
deriving DecidableEq, Repr

/-- The numeric invoice-level fields passed to `handleNumberChange`
(the page calls it exactly with `"subtotal"`, `"tax"` and `"total"`). -/
inductive NumField where
  | subtotal
  | tax
  | total
deriving DecidableEq, Repr

/-- The fields of an `InvoiceItem`, as passed to `updateItem`. -/
inductive ItemField where
  | sku
  | description
  | qty
  | unit_price
  | tax_rate
  | line_total
deriving DecidableEq, Repr

/-- `parseFloat(value) || 0`: a `NaN` parse (`none`) and a zero parse both
yield `0`; a nonzero parse is kept. -/
def parseFloatOrZero (pv : Option Rat) : Rat :=
  match pv with
  | none => 0
  | some x => if x = 0 then 0 else x

/-- A concrete executable model of JavaScript `parseFloat` on plain decimal
literals: optional sign, integer digits, optional fraction digits; `none`
when no digit is found (JS `NaN`). -/
def digitsToNat (l : List Char) : Nat :=
  l.foldl (fun n c => 10 * n + (c.toNat - 48)) 0

/-- See `digitsToNat`; decimal-literal fragment of JS `parseFloat`. -/
def jsParseFloat (s : String) : Option Rat :=
  let cs := s.toList
  let signRest : Rat × List Char :=
    match cs with
    | '-' :: t => (-1, t)
    | '+' :: t => (1, t)
    | _ => (1, cs)
  let intDigits := signRest.2.takeWhile Char.isDigit
  let rest := signRest.2.dropWhile Char.isDigit
  let fracDigits : List Char :=
    match rest with
    | '.' :: t => t.takeWhile Char.isDigit
    | _ => []
  if intDigits.isEmpty && fracDigits.isEmpty then none
  else
    some (signRest.1 *
      ((digitsToNat intDigits : Rat) +
        (digitsToNat fracDigits : Rat) / ((10 : Rat) ^ fracDigits.length)))

/-- A JavaScript number as observed by `parseFloat` and `||`: `NaN`, the
two infinities, or a finite value (modelled as a rational).  This is the
full codomain of JS `parseFloat`; the `Option Rat` model above is its
finite fragment. -/
inductive JSNum where
  | nan
  | posInf
  | negInf
  | fin (x : Rat)
deriving DecidableEq, Repr

/-- JS truthiness of a number: `NaN` and `0` are falsy, every other
number — the infinities included — is truthy. -/
def JSNum.isTruthy : JSNum → Bool
  | JSNum.nan => false
  | JSNum.fin x => x ≠ 0
  | _ => true

/-- `pv || 0` on JS numbers: the left operand when truthy, else `0`. -/
def jsOrZero (pv : JSNum) : JSNum :=
  if pv.isTruthy then pv else JSNum.fin 0

/-- JS `parseFloat` over the full number domain: the `Infinity` literals
(`parseFloat("Infinity")` is `Infinity` in JS) on top of the
decimal-literal fragment `jsParseFloat`; a failed parse is `NaN`. -/
def jsParseFloatFull (s : String) : JSNum :=
  if s = "Infinity" ∨ s = "+Infinity" then JSNum.posInf
  else if s = "-Infinity" then JSNum.negInf
  else
    match jsParseFloat s with
    | none => JSNum.nan
    | some x => JSNum.fin x

/-- The value `parseFloat(value) || 0` stored by the numeric-edit
handlers of `invoices/[id]/page.tsx` (lines 66 and 73), over the full JS
number domain. -/
def storedNumericValue (value : String) : JSNum :=
  jsOrZero (jsParseFloatFull value)

/-- The storage rule claim C10 asserts, written from the claim's words:
the parse result when it is a nonzero finite number, `0` otherwise. -/
def claimedStoredValue (value : String) : JSNum :=
  match jsParseFloatFull value with
  | JSNum.fin x => if x = 0 then JSNum.fin 0 else JSNum.fin x
  | _ => JSNum.fin 0

/-- `handleNumberChange` from `invoices/[id]/page.tsx`:
`setInvoice({ ...invoice, [field]: parseFloat(value) || 0 })`.
The parse function is a parameter (`none` = `NaN`). -/
def handleNumberChange (parse : String → Option Rat)
    (invoice : InvoiceDetail) (field : NumField) (value : String) :
    InvoiceDetail :=
  let v := parseFloatOrZero (parse value)
  match field with
  | NumField.subtotal => { invoice with subtotal := v }
  | NumField.tax => { invoice with tax := v }
  | NumField.total => { invoice with total := v }

/-- `{ ...item, [field]: v }` for a numeric item field. -/
def setItemNumField (item : InvoiceItem) (field : ItemField) (v : Rat) :
    InvoiceItem :=
  match field with
  | ItemField.qty => { item with qty := v }
  | ItemField.unit_price => { item with unit_price := v }
  | ItemField.tax_rate => { item with tax_rate := v }
  | ItemField.line_total => { item with line_total := v }
  | _ => item

/-- `{ ...item, [field]: value }` for a string item field. -/
def setItemStrField (item : InvoiceItem) (field : ItemField) (value : String) :
    InvoiceItem :=
  match field with
  | ItemField.sku => { item with sku := some value }
  | ItemField.description => { item with description := some value }
  | _ => item

/-- Whether `updateItem` takes the numeric branch:
`field === "qty" || field === "unit_price" || field === "tax_rate" ||
field === "line_total"`. -/
def ItemField.isNumeric : ItemField → Bool
  | ItemField.qty => true
  | ItemField.unit_price => true
  | ItemField.tax_rate => true
  | ItemField.line_total => true
  | _ => false

/-- `updateItem` from `invoices/[id]/page.tsx`: copies the items array,
replaces entry `index` with the item whose `field` is overwritten
(parsed with `parseFloat(value) || 0` on the numeric branch, the raw
string otherwise), and stores the copy back. -/
def updateItem (parse : String → Option Rat) (invoice : InvoiceDetail)
    (index : Nat) (field : ItemField) (value : String) : InvoiceDetail :=
  let upd : InvoiceItem → InvoiceItem := fun item =>
    if field.isNumeric then
      setItemNumField item field (parseFloatOrZero (parse value))
    else
      setItemStrField item field value
  { invoice with items := invoice.items.modify upd index }

/-- The fresh item appended by `addItem`. -/
def newBlankItem : InvoiceItem :=
  { sku := some "", description := some "", qty := 1, unit_price := 0,
    tax_rate := 0, line_total := 0 }

/-- `addItem` from `invoices/[id]/page.tsx`. -/
def addItem (invoice : InvoiceDetail) : InvoiceDetail :=
  { invoice with items := invoice.items ++ [newBlankItem] }

/-- JavaScript `Array.prototype.filter` with the element index:
`filterIdx keep l n` keeps the elements of `l` whose position
(counting from `n`) satisfies `keep`. -/
def filterIdx {α : Type} (keep : Nat → Bool) : List α → Nat → List α
  | [], _ => []
  | x :: xs, n =>
      if keep n then x :: filterIdx keep xs (n + 1)
      else filterIdx keep xs (n + 1)

/-- `removeItem` from `invoices/[id]/page.tsx`: a no-op when there is a
single item, otherwise `items.filter((_, idx) => idx !== index)`. -/
def removeItem (invoice : InvoiceDetail) (index : Nat) : InvoiceDetail :=
  if invoice.items.length = 1 then invoice
  else
    { invoice with
      items := filterIdx (fun idx => idx ≠ index) invoice.items 0 }

/-- `recalcTotals` from `invoices/[id]/page.tsx`: reduces the items to
`subtotal`, `tax` and `total = subtotal + tax`. -/
def recalcTotals (invoice : InvoiceDetail) : InvoiceDetail :=
  let subtotal :=
    invoice.items.foldl (fun sum item => sum + item.qty * item.unit_price) 0
  let tax :=
    invoice.items.foldl
      (fun sum item => sum + item.qty * item.unit_price * (item.tax_rate / 100))
      0
  let total := subtotal + tax
  { invoice with subtotal := subtotal, tax := tax, total := total }

/-- Reading an invoice-level numeric field. -/
def getNumField (invoice : InvoiceDetail) : NumField → Rat
  | NumField.subtotal => invoice.subtotal
  | NumField.tax => invoice.tax
  | NumField.total => invoice.total

/-- `handleFieldChange` from `invoices/[id]/page.tsx` for the string-typed
fields; the `status` select only offers `statusOptions`, so the status
branch decodes the option string. -/
inductive TextField where
  | supplier_name
  | supplier_gstin
  | invoice_no
  | invoice_date
  | status
deriving DecidableEq, Repr

/-- Decoding a `status` option string. -/
def Status.ofString (s : String) : Option Status :=
  if s = "PENDING" then some Status.PENDING
  else if s = "APPROVED" then some Status.APPROVED
  else none

/-- See `TextField`. -/
def handleFieldChange (invoice : InvoiceDetail) (field : TextField)
    (value : String) : InvoiceDetail :=
  match field with
  | TextField.supplier_name => { invoice with supplier_name := some value }
  | TextField.supplier_gstin => { invoice with supplier_gstin := some value }
  | TextField.invoice_no => { invoice with invoice_no := value }
  | TextField.invoice_date => { invoice with invoice_date := some value }
  | TextField.status =>
      { invoice with status := (Status.ofString value).getD invoice.status }

/-- `statusOptions` from `invoices/[id]/page.tsx`. -/
def statusOptions : List Status := [Status.PENDING, Status.APPROVED]

/-- Rendering a `Status` back to its wire string. -/
def Status.toWire : Status → String
  | Status.PENDING => "PENDING"
  | Status.APPROVED => "APPROVED"

/-! ## Schema model (`db/schema.sql`) -/

/-- A column of SQL type `ENUM(...)` with its `DEFAULT`. -/
structure EnumColumnSpec where
  enumValues : List String
  defaultValue : Option String
deriving DecidableEq, Repr

/-- The `status` column of `invoices`:
`ENUM('PENDING','APPROVED') DEFAULT 'PENDING'`. -/
def invoicesStatusColumn : EnumColumnSpec :=
  { enumValues := ["PENDING", "APPROVED"], defaultValue := some "PENDING" }

/-- A row of the `vendors` table. -/
structure VendorRow where
  id : Nat
  name : String
  gstin : Option String
  rating : Option Rat
  risk_score : Rat
deriving DecidableEq, Repr

/-- A row of the `invoices` table. -/
structure InvoiceRow where
  id : Nat
  supplier_name : Option String
  supplier_gstin : Option String
  invoice_no : Option String
  invoice_date : Option String
  subtotal : Option Rat
  tax : Option Rat
  total : Option Rat
  status : Status
  created_at : Option String
deriving DecidableEq, Repr

/-- A row of the `invoice_items` table; `invoice_id` is `INT NOT NULL`,
hence a plain `Nat`, never null. -/
structure InvoiceItemRow where
  id : Nat
  invoice_id : Nat
  sku : Option String
  description : Option String
  qty : Option Rat
  unit_price : Option Rat
  tax_rate : Option Rat
  line_total : Option Rat
deriving DecidableEq, Repr

/-- The three tables of `schema.sql`. -/
structure Database where
  vendors : List VendorRow
  invoices : List InvoiceRow
  invoice_items : List InvoiceItemRow
deriving DecidableEq, Repr

/-- The foreign key `invoice_items.invoice_id REFERENCES invoices(id)`:
every item row references some invoice row. -/
def fkIntegrity (db : Database) : Prop :=
  ∀ item ∈ db.invoice_items, ∃ inv ∈ db.invoices, inv.id = item.invoice_id

instance (db : Database) : Decidable (fkIntegrity db) := by
  unfold fkIntegrity; infer_instance

/-- `DELETE FROM invoices WHERE id = k` together with the schema's
`ON DELETE CASCADE` clause: the referencing `invoice_items` rows are
deleted with the invoice. -/
def deleteInvoice (db : Database) (k : Nat) : Database :=
  { db with
    invoices := db.invoices.filter (fun r => r.id ≠ k),
    invoice_items := db.invoice_items.filter (fun r => r.invoice_id ≠ k) }

/-! ## Dashboard model (`app/page.tsx`) -/

/-- `MessageType` from `app/page.tsx`. -/
inductive MessageType where
  | success
  | error
  | info
deriving DecidableEq, Repr

/-- The dashboard's `Invoice` record from `app/page.tsx`. -/
structure DashInvoice where
  id : Nat
  supplier_name : String
  invoice_no : String
  total : Rat
  status : String
  created_at : String
deriving DecidableEq, Repr

/-- A selected `File`, reduced to the data `onUpload` inspects. -/
structure UploadFile where
  name : String
  size : Nat
deriving DecidableEq, Repr

/-- The dashboard component state from `app/page.tsx`. -/
structure DashboardState where
  file : Option UploadFile
  busy : Bool
  invoices : List DashInvoice
  msg : String
  msgType : MessageType
deriving DecidableEq, Repr

/-- The synchronous guard phase of `onUpload` from `app/page.tsx`, up to
the `fetch('/extract')` call: the returned `Bool` is whether a network
request is issued. -/
def onUploadGuard (s : DashboardState) : DashboardState × Bool :=
  match s.file with
  | none =>
      ({ s with msg := "Please select a file", msgType := MessageType.error },
        false)
  | some f =>
      if f.size > 5 * 1024 * 1024 then
        let s1 := { s with msg := "File size must be less than 5MB",
                           msgType := MessageType.error }
        (s1, false)
      else
        ({ s with busy := true, msg := "" }, true)

/-! ## Vendor noninterference (`schema.sql` vendors vs the frontend) -/

/-- One editing step of the invoice review page. -/
inductive FrontendOp where
  | fieldChange (f : TextField) (v : String)
  | numberChange (f : NumField) (v : String)
  | itemUpdate (i : Nat) (f : ItemField) (v : String)
  | itemAdd
  | itemRemove (i : Nat)
  | recalc
deriving DecidableEq, Repr

/-- An invoice-review-page step, given the state of the `vendors` table:
no handler in `invoices/[id]/page.tsx` reads or writes vendor fields, so
the `vendors` argument is never consulted. -/
def applyFrontendOp (parse : String → Option Rat) (vendors : List VendorRow)
    (op : FrontendOp) (invoice : InvoiceDetail) : InvoiceDetail :=
  match op with
  | FrontendOp.fieldChange f v => handleFieldChange invoice f v
  | FrontendOp.numberChange f v => handleNumberChange parse invoice f v
  | FrontendOp.itemUpdate i f v => updateItem parse invoice i f v
  | FrontendOp.itemAdd => addItem invoice
  | FrontendOp.itemRemove i => removeItem invoice i
  | FrontendOp.recalc => recalcTotals invoice

/-- The dashboard upload guard, given the state of the `vendors` table:
`app/page.tsx` never reads vendor data, so the argument is never
consulted. -/
def onUploadGuardWithVendors (vendors : List VendorRow)
    (s : DashboardState) : DashboardState × Bool :=
  onUploadGuard s

/-- Sanity evaluation of the `parseFloat` model, shared by the witnesses. -/
lemma jsParseFloat_five : jsParseFloat "5" = some 5 := by
  simp [jsParseFloat, digitsToNat]

/-- Sanity evaluation of the `parseFloat` model on a non-numeric input. -/
lemma jsParseFloat_abc : jsParseFloat "abc" = none := by
  simp [jsParseFloat]

/-! ## Sample data (seed rows of `src/unnamed/part_000`) -/

/-- The seeded invoice `INV-1001` with its two items, as the review page
would hold it. -/
def sampleInvoice : InvoiceDetail :=
  { id := 1
    supplier_name := some "Acme Supplies"
    supplier_gstin := some "29ABCDE1234F1Z5"
    invoice_no := "INV-1001"
    invoice_date := some "2025-10-01"
    subtotal := 10000
    tax := 1800
    total := 11800
    status := Status.APPROVED
    items :=
      [ { sku := some "SKU-RED-PEN", description := some "Red Pen",
          qty := 100, unit_price := 50, tax_rate := 18, line_total := 5900 },
        { sku := some "SKU-NOTE-A5", description := some "A5 Notebook",
          qty := 50, unit_price := 100, tax_rate := 18, line_total := 5900 } ] }

/-- The seed database: two vendors, one invoice, two items. -/
def seedDatabase : Database :=
  { vendors :=
      [ { id := 1, name := "Acme Supplies", gstin := some "29ABCDE1234F1Z5",
          rating := some (9 / 2), risk_score := 12 },
        { id := 2, name := "Globex Retail", gstin := some "27PQRSX9876L1Z3",
          rating := some (41 / 10), risk_score := 8 } ]
    invoices :=
      [ { id := 1, supplier_name := some "Acme Supplies",
          supplier_gstin := some "29ABCDE1234F1Z5",
          invoice_no := some "INV-1001", invoice_date := some "2025-10-01",
          subtotal := some 10000, tax := some 1800, total := some 11800,
          status := Status.APPROVED, created_at := none } ]
    invoice_items :=
      [ { id := 1, invoice_id := 1, sku := some "SKU-RED-PEN",
          description := some "Red Pen", qty := some 100,
          unit_price := some 50, tax_rate := some 18,
          line_total := some 5900 },
        { id := 2, invoice_id := 1, sku := some "SKU-NOTE-A5",
          description := some "A5 Notebook", qty := some 50,
          unit_price := some 100, tax_rate := some 18,
          line_total := some 5900 } ] }

/-! ## Helper lemmas -/

/-- A `reduce((sum, item) => sum + f item, 0)` is the sum of the mapped
list. -/
lemma foldl_add_eq_sum (f : InvoiceItem → Rat) (l : List InvoiceItem)
    (a : Rat) : l.foldl (fun sum it => sum + f it) a = a + (l.map f).sum := by
  induction l generalizing a with
  | nil => simp
  | cons x xs ih => simp [ih]; ring

/-! ## Claims -/

/-- C1: `recalcTotals` sets `subtotal` to the sum over the items of
`qty * unit_price`, `tax` to the sum of `qty * unit_price * (tax_rate/100)`,
`total` to `subtotal + tax`, and leaves every other invoice field and the
items list unchanged. -/
theorem recalcTotals_spec (invoice : InvoiceDetail) :
    (recalcTotals invoice).subtotal
        = (invoice.items.map (fun it => it.qty * it.unit_price)).sum ∧
    (recalcTotals invoice).tax
        = (invoice.items.map
            (fun it => it.qty * it.unit_price * (it.tax_rate / 100))).sum ∧
    (recalcTotals invoice).total
        = (recalcTotals invoice).subtotal + (recalcTotals invoice).tax ∧
    (recalcTotals invoice).id = invoice.id ∧
    (recalcTotals invoice).supplier_name = invoice.supplier_name ∧
    (recalcTotals invoice).supplier_gstin = invoice.supplier_gstin ∧
    (recalcTotals invoice).invoice_no = invoice.invoice_no ∧
    (recalcTotals invoice).invoice_date = invoice.invoice_date ∧
    (recalcTotals invoice).status = invoice.status ∧
    (recalcTotals invoice).items = invoice.items := by
  simp [recalcTotals, foldl_add_eq_sum]

/-- C2: the arithmetic invariant `total = subtotal + tax` is not preserved
by `handleNumberChange`: editing `subtotal` alone breaks it. -/
theorem handleNumberChange_breaks_invariant :
    ∃ (invoice : InvoiceDetail) (f : NumField) (v : String),
      invoice.total = invoice.subtotal + invoice.tax ∧
      (handleNumberChange jsParseFloat invoice f v).total ≠
        (handleNumberChange jsParseFloat invoice f v).subtotal +
          (handleNumberChange jsParseFloat invoice f v).tax := by
  refine ⟨{ id := 1, supplier_name := none, supplier_gstin := none,
            invoice_no := "INV-1", invoice_date := none,
            subtotal := 0, tax := 0, total := 0,
            status := Status.PENDING, items := [] },
          NumField.subtotal, "5", by norm_num, ?_⟩
  simp [handleNumberChange, jsParseFloat_five, parseFloatOrZero]

/-- C3: `handleNumberChange` updates only the named field: every
non-numeric invoice field and the items list are unchanged, and each of
`subtotal`, `tax`, `total` changes only when it is the named field; in
particular editing `subtotal` or `tax` never recomputes `total`. -/
theorem handleNumberChange_frame (parse : String → Option Rat)
    (invoice : InvoiceDetail) (f : NumField) (v : String) :
    (handleNumberChange parse invoice f v).id = invoice.id ∧
    (handleNumberChange parse invoice f v).supplier_name
      = invoice.supplier_name ∧
    (handleNumberChange parse invoice f v).supplier_gstin
      = invoice.supplier_gstin ∧
    (handleNumberChange parse invoice f v).invoice_no = invoice.invoice_no ∧
    (handleNumberChange parse invoice f v).invoice_date
      = invoice.invoice_date ∧
    (handleNumberChange parse invoice f v).status = invoice.status ∧
    (handleNumberChange parse invoice f v).items = invoice.items ∧
    (f ≠ NumField.subtotal →
      (handleNumberChange parse invoice f v).subtotal = invoice.subtotal) ∧
    (f ≠ NumField.tax →
      (handleNumberChange parse invoice f v).tax = invoice.tax) ∧
    (f ≠ NumField.total →
      (handleNumberChange parse invoice f v).total = invoice.total) := by
  cases f <;> simp [handleNumberChange]

/-- Witness for C3 at the seeded invoice: editing `subtotal` with `"5"`
keeps `total` and the items list. -/
theorem handleNumberChange_frame_witness :
    (handleNumberChange jsParseFloat sampleInvoice NumField.subtotal
        "5").total = sampleInvoice.total ∧
    (handleNumberChange jsParseFloat sampleInvoice NumField.subtotal
        "5").items = sampleInvoice.items := by
  have h := handleNumberChange_frame jsParseFloat sampleInvoice
    NumField.subtotal "5"
  exact ⟨h.2.2.2.2.2.2.2.2.2 (by simp), h.2.2.2.2.2.2.1⟩

/-- C5: an invoice status has exactly the two values `PENDING` and
`APPROVED`; the page's selectable options are exactly those two, and the
schema's `status` column is an `ENUM` of the same two strings with
default `'PENDING'`. -/
theorem status_exactly_two_values :
    (∀ s : Status, s = Status.PENDING ∨ s = Status.APPROVED) ∧
    statusOptions = [Status.PENDING, Status.APPROVED] ∧
    invoicesStatusColumn.enumValues = statusOptions.map Status.toWire ∧
    invoicesStatusColumn.defaultValue
      = some (Status.toWire Status.PENDING) := by
  refine ⟨fun s => ?_, rfl, rfl, rfl⟩
  cases s
  · exact Or.inl rfl
  · exact Or.inr rfl

/-- C7: vendor data does not influence the frontend: for any two states
of the `vendors` table, every invoice-review editing step and the
dashboard upload guard produce identical results. -/
theorem frontend_ignores_vendors (parse : String → Option Rat)
    (vendors1 vendors2 : List VendorRow) (op : FrontendOp)
    (invoice : InvoiceDetail) (s : DashboardState) :
    applyFrontendOp parse vendors1 op invoice
      = applyFrontendOp parse vendors2 op invoice ∧
    onUploadGuardWithVendors vendors1 s
      = onUploadGuardWithVendors vendors2 s := by
  exact ⟨rfl, rfl⟩

/-- Two items agree on every field other than `f`. -/
def itemAgreesExcept (f : ItemField) (a b : InvoiceItem) : Prop :=
  (f ≠ ItemField.sku → a.sku = b.sku) ∧
  (f ≠ ItemField.description → a.description = b.description) ∧
  (f ≠ ItemField.qty → a.qty = b.qty) ∧
  (f ≠ ItemField.unit_price → a.unit_price = b.unit_price) ∧
  (f ≠ ItemField.tax_rate → a.tax_rate = b.tax_rate) ∧
  (f ≠ ItemField.line_total → a.line_total = b.line_total)

/-- C4: `updateItem` on `qty`, `unit_price` or `tax_rate` of a valid item
index changes only that one field of that one item: `line_total` is not
recomputed, every other item is unchanged, and the invoice-level
`subtotal`, `tax`, `total` (and all other invoice fields) are
unchanged. -/
theorem updateItem_frame (parse : String → Option Rat)
    (invoice : InvoiceDetail) (i : Nat) (f : ItemField) (v : String)
    (hi : i < invoice.items.length)
    (hf : f = ItemField.qty ∨ f = ItemField.unit_price ∨
      f = ItemField.tax_rate) :
    (updateItem parse invoice i f v).subtotal = invoice.subtotal ∧
    (updateItem parse invoice i f v).tax = invoice.tax ∧
    (updateItem parse invoice i f v).total = invoice.total ∧
    (updateItem parse invoice i f v).id = invoice.id ∧
    (updateItem parse invoice i f v).supplier_name = invoice.supplier_name ∧
    (updateItem parse invoice i f v).supplier_gstin
      = invoice.supplier_gstin ∧
    (updateItem parse invoice i f v).invoice_no = invoice.invoice_no ∧
    (updateItem parse invoice i f v).invoice_date = invoice.invoice_date ∧
    (updateItem parse invoice i f v).status = invoice.status ∧
    (updateItem parse invoice i f v).items.length
      = invoice.items.length ∧
    (∀ j, j ≠ i →
      (updateItem parse invoice i f v).items[j]? = invoice.items[j]?) ∧
    ∀ (h : i < (updateItem parse invoice i f v).items.length),
      itemAgreesExcept f ((updateItem parse invoice i f v).items.get ⟨i, h⟩)
        (invoice.items.get ⟨i, hi⟩) := by
  refine ⟨rfl, rfl, rfl, rfl, rfl, rfl, rfl, rfl, rfl, ?_, ?_, ?_⟩
  · simp [updateItem]
  · intro j hj
    simp only [updateItem]
    exact List.getElem?_modify_ne _ _ (Ne.symm hj)
  · intro h
    have hget : ((updateItem parse invoice i f v).items.get ⟨i, h⟩)
        = setItemNumField (invoice.items.get ⟨i, hi⟩) f
            (parseFloatOrZero (parse v)) := by
      simp only [updateItem, List.get_eq_getElem]
      rw [List.getElem_modify]
      rcases hf with rfl | rfl | rfl <;> simp [ItemField.isNumeric]
    rw [hget]
    rcases hf with rfl | rfl | rfl <;>
      simp [itemAgreesExcept, setItemNumField]

/-- Witness for C4 at the seeded invoice: editing item 0's `qty` keeps its
`line_total`, item 1, and the invoice totals. -/
theorem updateItem_frame_witness :
    (updateItem jsParseFloat sampleInvoice 0 ItemField.qty "5").subtotal
      = sampleInvoice.subtotal ∧
    (updateItem jsParseFloat sampleInvoice 0
        ItemField.qty "5").items[1]? = sampleInvoice.items[1]? := by
  have h := updateItem_frame jsParseFloat sampleInvoice 0 ItemField.qty "5"
    (by simp [sampleInvoice]) (Or.inl rfl)
  exact ⟨h.1, h.2.2.2.2.2.2.2.2.2.2.1 1 (by simp)⟩

/-- `filter((_, idx) => idx !== target)` starting at position `n` erases
exactly the element at absolute position `target`. -/
lemma filterIdx_ne {α : Type} (l : List α) (n target : Nat) :
    filterIdx (fun idx => idx ≠ target) l n
      = if target < n then l else l.eraseIdx (target - n) := by
  induction l generalizing n with
  | nil => simp [filterIdx]
  | cons x xs ih =>
    simp only [filterIdx]
    rw [ih]
    by_cases heq : n = target
    · subst heq
      simp [Nat.lt_irrefl, Nat.lt_succ_self, Nat.sub_self]
    · by_cases hlt : target < n
      · have hlt1 : target < n + 1 := Nat.lt_succ_of_lt hlt
        simp [heq, hlt, hlt1]
      · have h2 : ¬ target < n + 1 := by omega
        have h3 : target - n = (target - (n + 1)) + 1 := by omega
        simp [heq, hlt, h2, h3]

/-- C8: the items list never becomes empty under the item-editing
operations: `removeItem` is the identity on a one-item invoice; on an
invoice with at least two items and a valid index it removes exactly the
item at that index, one fewer item remaining; `addItem` appends exactly
one item with `qty = 1` and zero `unit_price`, `tax_rate`,
`line_total`. -/
theorem items_list_stays_nonempty :
    (∀ (invoice : InvoiceDetail) (i : Nat),
      invoice.items ≠ [] → (removeItem invoice i).items ≠ []) ∧
    (∀ (invoice : InvoiceDetail) (i : Nat),
      invoice.items.length = 1 → removeItem invoice i = invoice) ∧
    (∀ (invoice : InvoiceDetail) (i : Nat),
      2 ≤ invoice.items.length → i < invoice.items.length →
      (removeItem invoice i).items
        = invoice.items.take i ++ invoice.items.drop (i + 1) ∧
      (removeItem invoice i).items.length = invoice.items.length - 1) ∧
    (∀ invoice : InvoiceDetail,
      (addItem invoice).items = invoice.items ++ [newBlankItem] ∧
      (addItem invoice).items.length = invoice.items.length + 1) ∧
    newBlankItem.qty = 1 ∧ newBlankItem.unit_price = 0 ∧
    newBlankItem.tax_rate = 0 ∧ newBlankItem.line_total = 0 := by
  refine ⟨?_, ?_, ?_, ?_, rfl, rfl, rfl, rfl⟩
  · intro invoice i hne
    by_cases h1 : invoice.items.length = 1
    · simpa [removeItem, h1] using hne
    · have h0 : invoice.items.length ≠ 0 := by
        intro h
        exact hne (List.length_eq_zero.mp h)
      have hrw : (removeItem invoice i).items = invoice.items.eraseIdx i := by
        unfold removeItem
        rw [if_neg h1]
        show filterIdx (fun idx => idx ≠ i) invoice.items 0
          = invoice.items.eraseIdx i
        rw [filterIdx_ne]
        simp
      rw [hrw]
      intro hcontra
      have hl := congrArg List.length hcontra
      rw [List.length_eraseIdx] at hl
      simp only [List.length_nil] at hl
      split at hl <;> omega
  · intro invoice i h1
    simp [removeItem, h1]
  · intro invoice i h2 hi
    have h1 : invoice.items.length ≠ 1 := by omega
    constructor
    · simp only [removeItem, h1, if_false, filterIdx_ne, Nat.not_lt_zero,
        if_neg, Nat.sub_zero]
      exact List.eraseIdx_eq_take_drop_succ _ _
    · simp only [removeItem, h1, if_false, filterIdx_ne, Nat.not_lt_zero,
        if_neg, Nat.sub_zero]
      exact List.length_eraseIdx_of_lt hi
  · intro invoice
    exact ⟨rfl, by simp [addItem]⟩

/-- Witness for C8 at the seeded invoice: removing item 0 of the two-item
list leaves exactly item 1, and removing from a one-item invoice is the
identity. -/
theorem items_list_stays_nonempty_witness :
    (removeItem sampleInvoice 0).items
        = sampleInvoice.items.take 0 ++ sampleInvoice.items.drop 1 ∧
    (removeItem (addItem sampleInvoice) 5).items ≠ [] := by
  constructor
  · exact ((items_list_stays_nonempty.2.2.1) sampleInvoice 0
      (by simp [sampleInvoice]) (by simp [sampleInvoice])).1
  · exact (items_list_stays_nonempty.1) (addItem sampleInvoice) 5
      (by simp [addItem, sampleInvoice])

/-- C9: the upload guard enforces the 5 MB limit: a file larger than
`5 * 1024 * 1024` bytes sets the size error message, issues no network
request, and leaves the invoice list unchanged; with no file selected it
sets the missing-file message and likewise issues no request. -/
theorem onUpload_guard_spec (s : DashboardState) :
    (∀ f : UploadFile, s.file = some f → f.size > 5 * 1024 * 1024 →
      (onUploadGuard s).1.msg = "File size must be less than 5MB" ∧
      (onUploadGuard s).1.msgType = MessageType.error ∧
      (onUploadGuard s).2 = false ∧
      (onUploadGuard s).1.invoices = s.invoices) ∧
    (s.file = none →
      (onUploadGuard s).1.msg = "Please select a file" ∧
      (onUploadGuard s).1.msgType = MessageType.error ∧
      (onUploadGuard s).2 = false ∧
      (onUploadGuard s).1.invoices = s.invoices) := by
  constructor
  · intro f hf hsize
    simp [onUploadGuard, hf, hsize]
  · intro hf
    simp [onUploadGuard, hf]

/-- Witness for C9: a 6 MB file is rejected with no request issued. -/
theorem onUpload_guard_spec_witness :
    (onUploadGuard
        { file := some { name := "big.pdf", size := 6 * 1024 * 1024 },
          busy := false, invoices := [], msg := "",
          msgType := MessageType.info }).1.msg
      = "File size must be less than 5MB" ∧
    (onUploadGuard
        { file := some { name := "big.pdf", size := 6 * 1024 * 1024 },
          busy := false, invoices := [], msg := "",
          msgType := MessageType.info }).2 = false := by
  have h := (onUpload_guard_spec
      { file := some { name := "big.pdf", size := 6 * 1024 * 1024 },
        busy := false, invoices := [], msg := "",
        msgType := MessageType.info }).1
    { name := "big.pdf", size := 6 * 1024 * 1024 } rfl (by norm_num)
  exact ⟨h.1, h.2.2.1⟩

/-- Reading a numeric item field (`0` on the string fields, which are
never read numerically). -/
def getItemNumField (item : InvoiceItem) : ItemField → Rat
  | ItemField.qty => item.qty
  | ItemField.unit_price => item.unit_price
  | ItemField.tax_rate => item.tax_rate
  | ItemField.line_total => item.line_total
  | _ => 0

/-- C10 counterexample: on the input string `"Infinity"` the code stores
`Infinity` — a truthy, non-finite parse result — while the claimed rule
("store the parse result when it is a nonzero finite number and 0
otherwise") demands `0`. -/
theorem numeric_edit_infinity_counterexample :
    jsParseFloatFull "Infinity" = JSNum.posInf ∧
    storedNumericValue "Infinity" = JSNum.posInf ∧
    claimedStoredValue "Infinity" = JSNum.fin 0 ∧
    storedNumericValue "Infinity" ≠ claimedStoredValue "Infinity" := by
  have hp : jsParseFloatFull "Infinity" = JSNum.posInf := by
    simp [jsParseFloatFull]
  refine ⟨hp, ?_, ?_, ?_⟩
  · simp [storedNumericValue, hp, jsOrZero, JSNum.isTruthy]
  · simp [claimedStoredValue, hp]
  · simp [storedNumericValue, claimedStoredValue, hp, jsOrZero,
      JSNum.isTruthy]

/-- C10 (amended): numeric edits are total and never store a `NaN`: the
stored value is `parseFloat(v) || 0` — the parse result when it is
truthy (a nonzero finite number or an infinity), and `0` otherwise (a
`NaN` or zero parse, including empty and non-numeric strings).  In the
finite fragment, `handleNumberChange` on `subtotal`/`tax`/`total` and
`updateItem` on the numeric item fields at a valid index store exactly
this value. -/
theorem numeric_edits_store_truthy_or_zero (parse : String → Option Rat)
    (invoice : InvoiceDetail) (v : String) :
    ((jsParseFloatFull v).isTruthy = true →
      storedNumericValue v = jsParseFloatFull v) ∧
    ((jsParseFloatFull v).isTruthy = false →
      storedNumericValue v = JSNum.fin 0) ∧
    storedNumericValue v ≠ JSNum.nan ∧
    (∀ pv : Option Rat,
      ((pv = none ∨ pv = some 0) → parseFloatOrZero pv = 0) ∧
      (∀ x : Rat, pv = some x → x ≠ 0 → parseFloatOrZero pv = x)) ∧
    (∀ f : NumField,
      getNumField (handleNumberChange parse invoice f v) f
        = parseFloatOrZero (parse v)) ∧
    (∀ (i : Nat) (f : ItemField) (hi : i < invoice.items.length),
      f.isNumeric = true →
      (updateItem parse invoice i f v).items[i]?
        = some (setItemNumField (invoice.items.get ⟨i, hi⟩) f
            (parseFloatOrZero (parse v)))) ∧
    (∀ (item : InvoiceItem) (f : ItemField) (x : Rat),
      f.isNumeric = true →
      getItemNumField (setItemNumField item f x) f = x) := by
  refine ⟨?_, ?_, ?_, ?_, ?_, ?_, ?_⟩
  · intro ht
    simp [storedNumericValue, jsOrZero, ht]
  · intro ht
    simp [storedNumericValue, jsOrZero, ht]
  · rcases hp : jsParseFloatFull v with _ | _ | _ | x <;>
      simp [storedNumericValue, jsOrZero, hp, JSNum.isTruthy]
    by_cases hx : x = 0 <;> simp [hx]
  · intro pv
    constructor
    · rintro (rfl | rfl) <;> simp [parseFloatOrZero]
    · rintro x rfl hx
      simp [parseFloatOrZero, hx]
  · intro f
    cases f <;> simp [handleNumberChange, getNumField]
  · intro i f hi hnum
    simp only [updateItem, List.getElem?_modify_eq, hnum, if_true,
      List.getElem?_eq_getElem hi]
    simp
  · intro item f x hnum
    cases f <;> simp_all [setItemNumField, getItemNumField,
      ItemField.isNumeric]

/-- Witness for the amended C10: a non-numeric string parses to `NaN`,
is falsy, and editing item 0's `qty` of the seeded invoice with it
stores `0`. -/
theorem numeric_edits_store_truthy_or_zero_witness :
    storedNumericValue "abc" = JSNum.fin 0 ∧
    parseFloatOrZero (jsParseFloat "abc") = 0 ∧
    (updateItem jsParseFloat sampleInvoice 0 ItemField.qty "abc").items[0]?
      = some (setItemNumField (sampleInvoice.items.get ⟨0, by simp [sampleInvoice]⟩)
          ItemField.qty (parseFloatOrZero (jsParseFloat "abc"))) := by
  have h := numeric_edits_store_truthy_or_zero jsParseFloat sampleInvoice "abc"
  refine ⟨h.2.1 ?_, (h.2.2.2.1 (jsParseFloat "abc")).1 (Or.inl jsParseFloat_abc),
    h.2.2.2.2.2.1 0 ItemField.qty (by simp [sampleInvoice]) rfl⟩
  simp [jsParseFloatFull, jsParseFloat_abc, JSNum.isTruthy]

/-- C6: every invoice item belongs to exactly one invoice — `invoice_id`
is a non-null reference resolved by exactly one invoice row when invoice
ids are unique — and `ON DELETE CASCADE` removes all of an invoice's
items: after deleting invoice `k` no item row with `invoice_id = k`
remains, the invoice row itself is gone, and referential integrity is
preserved. -/
theorem cascade_delete_spec (db : Database) (k : Nat)
    (hfk : fkIntegrity db)
    (hnd : (db.invoices.map InvoiceRow.id).Nodup) :
    (∀ item ∈ db.invoice_items,
      ∃! inv : InvoiceRow, inv ∈ db.invoices ∧ inv.id = item.invoice_id) ∧
    (∀ item ∈ (deleteInvoice db k).invoice_items, item.invoice_id ≠ k) ∧
    (∀ inv ∈ (deleteInvoice db k).invoices, inv.id ≠ k) ∧
    fkIntegrity (deleteInvoice db k) := by
  refine ⟨?_, ?_, ?_, ?_⟩
  · intro item hitem
    obtain ⟨inv, hinv, hid⟩ := hfk item hitem
    refine ⟨inv, ⟨hinv, hid⟩, ?_⟩
    rintro inv' ⟨hinv', hid'⟩
    exact List.inj_on_of_nodup_map hnd hinv' hinv (by rw [hid, hid'])
  · intro item hitem
    have := List.of_mem_filter (p := fun r : InvoiceItemRow => r.invoice_id ≠ k) hitem
    simpa using this
  · intro inv hinv
    have := List.of_mem_filter (p := fun r : InvoiceRow => r.id ≠ k) hinv
    simpa using this
  · intro item hitem
    have hmem : item ∈ db.invoice_items := List.mem_of_mem_filter hitem
    have hne : item.invoice_id ≠ k := by
      have := List.of_mem_filter (p := fun r : InvoiceItemRow => r.invoice_id ≠ k) hitem
      simpa using this
    obtain ⟨inv, hinv, hid⟩ := hfk item hmem
    refine ⟨inv, ?_, hid⟩
    apply List.mem_filter_of_mem hinv
    simpa [hid] using hne

/-- Witness for C6 at the seed database: deleting invoice 1 leaves no
item referencing it and keeps referential integrity. -/
theorem cascade_delete_spec_witness :
    (deleteInvoice seedDatabase 1).invoice_items.all
      (fun item => item.invoice_id ≠ 1) = true ∧
    fkIntegrity (deleteInvoice seedDatabase 1) := by
  have h := cascade_delete_spec seedDatabase 1 (by decide) (by decide)
  refine ⟨?_, h.2.2.2⟩
  rw [List.all_eq_true]
  intro item hitem
  simpa using h.2.1 item hitem
